import Mathlib

/-
Verification of `src/workload_type/workload_builder.rs` (rudr).

The file shallowly embeds the two resource builders of the workload
subsystem (`JobBuilder` and `ServiceBuilder`), their consuming setter
methods, their pure finalizers `to_job` / `to_service`, and the submission
entry points `do_request`.  Kubernetes API types are embedded with exactly
the fields the source constructs; every field the source leaves to
`Default::default()` is omitted, since no claim touches it and the source
never does either.  The external `Component` type (crate::schematic) is not
part of the given sources and is modelled from the spec's external-interface
contract as an abstract record.  Submission is embedded by explicit state
passing: the Kubernetes API client becomes a state-transformer record, so
that "no request was issued" is expressible as "the cluster state is
unchanged for every possible client".
-/

namespace Rudr

/-- Labels embeds the source alias `type Labels = BTreeMap<String, String>`.
The builders never insert into or query the map — they only store and clone
it — so it is embedded as the list of its (key, value) entries. -/
abbrev Labels : Type := List (String × String)

section DataModel

variable (Oref Port SPort PodSpec : Type)

/-- ObjectMeta embeds `meta::ObjectMeta` restricted to the three fields the
source sets (`name`, `labels`, `owner_references`); everything else comes
from `Default::default()` and is never read.  Ownership-reference records
are opaque to this subsystem, so they stay an abstract type `Oref`. -/
structure ObjectMeta where
  name : Option String
  labels : Option Labels
  owner_references : Option (List Oref)
deriving DecidableEq

/-- PodTemplateSpec embeds `api::PodTemplateSpec` (fields `metadata`,
`spec`); rendered pod specs are opaque to this subsystem (`PodSpec`). -/
structure PodTemplateSpec where
  metadata : Option (ObjectMeta Oref)
  spec : Option PodSpec
deriving DecidableEq

/-- JobSpec embeds `batchapi::JobSpec` restricted to the fields the source
sets: `backoff_limit`, `parallelism`, `template`. -/
structure JobSpec where
  backoff_limit : Option Int
  parallelism : Option Int
  template : PodTemplateSpec Oref PodSpec
deriving DecidableEq

/-- Job embeds `batchapi::Job` restricted to the fields the source sets
(`metadata`, `spec`). -/
structure Job where
  metadata : Option (ObjectMeta Oref)
  spec : Option (JobSpec Oref PodSpec)
deriving DecidableEq

/-- ServiceSpec embeds `api::ServiceSpec` restricted to the fields the
source sets: `selector` and `ports`.  Service-port descriptors are opaque
(`SPort`). -/
structure ServiceSpec where
  selector : Option Labels
  ports : Option (List SPort)
deriving DecidableEq

/-- Service embeds `api::Service` restricted to the fields the source sets
(`metadata`, `spec`). -/
structure Service where
  metadata : Option (ObjectMeta Oref)
  spec : Option (ServiceSpec SPort)
deriving DecidableEq

/-- Modelled from the spec: `crate::schematic::component::Component` is an
external collaborator whose source is not in the file set.  Per the spec it
"must expose (a) a way to render a full execution-unit spec given a restart
policy, (b) an optional declared listening port, (c) a conversion from that
port to a service-port descriptor".  In the source, (c) is a method on the
port value returned by (b); it is carried here in the component record,
which is equivalent since that is the only place such a port comes from. -/
structure Component where
  listening_port : Option Port
  to_service_port : Port → SPort
  to_pod_spec_with_policy : String → PodSpec

/-- JobBuilder embeds the source struct of the same name: a batch-resource
builder with labels, restart policy, optional ownership references and
optional parallelism (`Option<i32>`, embedded as `Option Int`: the value is
only stored, never computed with). -/
structure JobBuilder where
  component : Component Port SPort PodSpec
  labels : Labels
  name : String
  restart_policy : String
  owner_ref : Option (List Oref)
  parallelism : Option Int

/-- ServiceBuilder embeds the source struct of the same name: a
network-resource builder with labels and optional ownership references. -/
structure ServiceBuilder where
  component : Component Port SPort PodSpec
  labels : Labels
  name : String
  owner_ref : Option (List Oref)

/-- APIClient embeds the Kubernetes client handle as an explicit
state-transformer: each create endpoint consumes a namespace, a serialized
resource and the cluster state, and yields the new state and a result.
Serialization and transport failures of the source are absorbed into the
`Except String Unit` result. -/
structure APIClient (σ : Type) where
  create_job : String → Job Oref PodSpec → σ → σ × Except String Unit
  create_service : String → Service Oref SPort → σ → σ × Except String Unit

end DataModel

section Operations

variable {Oref Port SPort PodSpec : Type}

/-- JobBuilder::new — defaults: empty labels, restart policy "Never", no
owner references, no parallelism. -/
def JobBuilder.new (instance_name : String) (component : Component Port SPort PodSpec) :
    JobBuilder Oref Port SPort PodSpec :=
  { name := instance_name
    component := component
    labels := []
    restart_policy := "Never"
    owner_ref := none
    parallelism := none }

/-- JobBuilder::labels — replaces the label map wholesale.  (The Rust
method name coincides with the field name, which Lean's field projection
occupies, hence the `set_` prefix here and below.) -/
def JobBuilder.set_labels (b : JobBuilder Oref Port SPort PodSpec) (labels : Labels) :
    JobBuilder Oref Port SPort PodSpec :=
  { b with labels := labels }

/-- JobBuilder::restart_policy — replaces the restart policy string. -/
def JobBuilder.set_restart_policy (b : JobBuilder Oref Port SPort PodSpec) (policy : String) :
    JobBuilder Oref Port SPort PodSpec :=
  { b with restart_policy := policy }

/-- JobBuilder::owner_ref — replaces the optional ownership references
(`none` clears them). -/
def JobBuilder.set_owner_ref (b : JobBuilder Oref Port SPort PodSpec)
    (owner : Option (List Oref)) : JobBuilder Oref Port SPort PodSpec :=
  { b with owner_ref := owner }

/-- JobBuilder::parallelism — sets parallelism to `Some count`. -/
def JobBuilder.set_parallelism (b : JobBuilder Oref Port SPort PodSpec) (count : Int) :
    JobBuilder Oref Port SPort PodSpec :=
  { b with parallelism := some count }

/-- JobBuilder::to_job — builds the Job resource: top-level metadata from
name/labels/owner_ref, spec with backoff_limit 4, the stored parallelism,
and a pod template duplicating the same metadata and rendering the pod spec
under the stored restart policy. -/
def JobBuilder.to_job (b : JobBuilder Oref Port SPort PodSpec) : Job Oref PodSpec :=
  { metadata := some
      { name := some b.name
        labels := some b.labels
        owner_references := b.owner_ref }
    spec := some
      { backoff_limit := some 4
        parallelism := b.parallelism
        template :=
          { metadata := some
              { name := some b.name
                labels := some b.labels
                owner_references := b.owner_ref }
            spec := some (b.component.to_pod_spec_with_policy b.restart_policy) } } }

/-- JobBuilder::do_request — finalizes and issues a create request against
the batch endpoint. -/
def JobBuilder.do_request {σ : Type} (b : JobBuilder Oref Port SPort PodSpec)
    (client : APIClient Oref SPort PodSpec σ) (ns : String) (s : σ) :
    σ × Except String Unit :=
  client.create_job ns b.to_job s

/-- ServiceBuilder::new — defaults: empty labels, no owner references. -/
def ServiceBuilder.new (instance_name : String) (component : Component Port SPort PodSpec) :
    ServiceBuilder Oref Port SPort PodSpec :=
  { name := instance_name
    component := component
    labels := []
    owner_ref := none }

/-- ServiceBuilder::labels — replaces the label map wholesale. -/
def ServiceBuilder.set_labels (b : ServiceBuilder Oref Port SPort PodSpec) (labels : Labels) :
    ServiceBuilder Oref Port SPort PodSpec :=
  { b with labels := labels }

/-- ServiceBuilder::owner_reference — replaces the optional ownership
references (`none` clears them). -/
def ServiceBuilder.set_owner_reference (b : ServiceBuilder Oref Port SPort PodSpec)
    (owner_ref : Option (List Oref)) : ServiceBuilder Oref Port SPort PodSpec :=
  { b with owner_ref := owner_ref }

/-- ServiceBuilder::to_service — asks the component for its listening port;
with no port the result is `none` (the source's `and_then` over
`listening_port()`), with a port it is a Service whose selector is the
builder's labels and whose ports are the singleton conversion of the
declared port. -/
def ServiceBuilder.to_service (b : ServiceBuilder Oref Port SPort PodSpec) :
    Option (Service Oref SPort) :=
  b.component.listening_port.bind fun port =>
    some
      { metadata := some
          { name := some b.name
            labels := some b.labels
            owner_references := b.owner_ref }
        spec := some
          { selector := some b.labels
            ports := some [b.component.to_service_port port] } }

/-- ServiceBuilder::do_request — finalizes; a produced Service is created
against the service endpoint, absence is a no-op success (the source's
`None` arm returns `Ok(())` after an informational log). -/
def ServiceBuilder.do_request {σ : Type} (b : ServiceBuilder Oref Port SPort PodSpec)
    (client : APIClient Oref SPort PodSpec σ) (ns : String) (s : σ) :
    σ × Except String Unit :=
  match b.to_service with
  | some svc => client.create_service ns svc s
  | none => (s, Except.ok ())

end Operations

end Rudr

namespace Rudr

section OpSequences

variable {Oref Port SPort PodSpec : Type}

/-- JobOp enumerates the configuration setters of JobBuilder, so that an
arbitrary chain of builder operations is a list of ops applied in order. -/
inductive JobOp (Oref : Type) : Type where
  | set_labels : Labels → JobOp Oref
  | set_restart_policy : String → JobOp Oref
  | set_owner_ref : Option (List Oref) → JobOp Oref
  | set_parallelism : Int → JobOp Oref
deriving DecidableEq

/-- Tests whether a JobOp is an invocation of the parallelism setter. -/
def JobOp.isSetParallelism : JobOp Oref → Bool
  | .set_parallelism _ => true
  | _ => false

/-- Applies one configuration op to a JobBuilder. -/
def JobBuilder.applyOp (b : JobBuilder Oref Port SPort PodSpec) :
    JobOp Oref → JobBuilder Oref Port SPort PodSpec
  | .set_labels l => b.set_labels l
  | .set_restart_policy p => b.set_restart_policy p
  | .set_owner_ref o => b.set_owner_ref o
  | .set_parallelism n => b.set_parallelism n

/-- Applies a chain of configuration ops to a JobBuilder, left to right. -/
def JobBuilder.applyAll (b : JobBuilder Oref Port SPort PodSpec) (ops : List (JobOp Oref)) :
    JobBuilder Oref Port SPort PodSpec :=
  ops.foldl JobBuilder.applyOp b

/-- ServiceOp enumerates the configuration setters of ServiceBuilder. -/
inductive ServiceOp (Oref : Type) : Type where
  | set_labels : Labels → ServiceOp Oref
  | set_owner_reference : Option (List Oref) → ServiceOp Oref
deriving DecidableEq

/-- Applies one configuration op to a ServiceBuilder. -/
def ServiceBuilder.applyOp (b : ServiceBuilder Oref Port SPort PodSpec) :
    ServiceOp Oref → ServiceBuilder Oref Port SPort PodSpec
  | .set_labels l => b.set_labels l
  | .set_owner_reference o => b.set_owner_reference o

/-- Applies a chain of configuration ops to a ServiceBuilder, left to right. -/
def ServiceBuilder.applyAll (b : ServiceBuilder Oref Port SPort PodSpec)
    (ops : List (ServiceOp Oref)) : ServiceBuilder Oref Port SPort PodSpec :=
  ops.foldl ServiceBuilder.applyOp b

/-- Every JobBuilder setter leaves the name field unchanged. -/
theorem JobBuilder.applyOp_preserves_name (b : JobBuilder Oref Port SPort PodSpec)
    (op : JobOp Oref) : (b.applyOp op).name = b.name := by
  cases op <;> rfl

/-- A chain of JobBuilder setters leaves the name field unchanged. -/
theorem JobBuilder.applyAll_preserves_name (b : JobBuilder Oref Port SPort PodSpec)
    (ops : List (JobOp Oref)) : (b.applyAll ops).name = b.name := by
  induction ops generalizing b with
  | nil => rfl
  | cons op rest ih =>
      calc ((b.applyOp op).applyAll rest).name
          = (b.applyOp op).name := ih (b.applyOp op)
        _ = b.name := JobBuilder.applyOp_preserves_name b op

/-- Every ServiceBuilder setter leaves the name field unchanged. -/
theorem ServiceBuilder.applyOp_preserves_service_name (b : ServiceBuilder Oref Port SPort PodSpec)
    (op : ServiceOp Oref) : (b.applyOp op).name = b.name := by
  cases op <;> rfl

/-- A chain of ServiceBuilder setters leaves the name field unchanged. -/
theorem ServiceBuilder.applyAll_preserves_service_name (b : ServiceBuilder Oref Port SPort PodSpec)
    (ops : List (ServiceOp Oref)) : (b.applyAll ops).name = b.name := by
  induction ops generalizing b with
  | nil => rfl
  | cons op rest ih =>
      calc ((b.applyOp op).applyAll rest).name
          = (b.applyOp op).name := ih (b.applyOp op)
        _ = b.name := ServiceBuilder.applyOp_preserves_service_name b op

/-- A setter other than the parallelism setter leaves parallelism unchanged. -/
theorem JobBuilder.applyOp_preserves_parallelism (b : JobBuilder Oref Port SPort PodSpec)
    (op : JobOp Oref) (h : op.isSetParallelism = false) :
    (b.applyOp op).parallelism = b.parallelism := by
  cases op with
  | set_labels l => rfl
  | set_restart_policy p => rfl
  | set_owner_ref o => rfl
  | set_parallelism n => simp [JobOp.isSetParallelism] at h

/-- A chain of setters never invoking the parallelism setter leaves
parallelism unchanged. -/
theorem JobBuilder.applyAll_preserves_parallelism (b : JobBuilder Oref Port SPort PodSpec)
    (ops : List (JobOp Oref)) (h : ∀ op ∈ ops, op.isSetParallelism = false) :
    (b.applyAll ops).parallelism = b.parallelism := by
  induction ops generalizing b with
  | nil => rfl
  | cons op rest ih =>
      calc ((b.applyOp op).applyAll rest).parallelism
          = (b.applyOp op).parallelism :=
            ih (b.applyOp op) (fun o ho => h o (List.mem_cons_of_mem op ho))
        _ = b.parallelism :=
            JobBuilder.applyOp_preserves_parallelism b op (h op (List.mem_cons_self op rest))

end OpSequences

end Rudr

namespace Rudr

section ClaimTheorems

variable {Oref Port SPort PodSpec : Type}

/-- C1: for every ServiceBuilder whose component declares no listening
port, whatever its labels and ownership-reference configuration, to_service
returns the absent value none — not an error and not an empty resource. -/
theorem to_service_absent_without_port (b : ServiceBuilder Oref Port SPort PodSpec)
    (h : b.component.listening_port = none) :
    b.to_service = none := by
  unfold ServiceBuilder.to_service
  rw [h]
  rfl

/-- C2: for every ServiceBuilder whose component declares listening port p,
to_service returns a Service whose spec port list is exactly the singleton
conversion of p and whose spec selector equals the configured labels
exactly. -/
theorem to_service_with_port_ports_selector (b : ServiceBuilder Oref Port SPort PodSpec)
    (p : Port) (h : b.component.listening_port = some p) :
    b.to_service = some
      { metadata := some
          { name := some b.name
            labels := some b.labels
            owner_references := b.owner_ref }
        spec := some
          { selector := some b.labels
            ports := some [b.component.to_service_port p] } } := by
  unfold ServiceBuilder.to_service
  rw [h]
  rfl

/-- C3: for every JobBuilder state, however reached by builder operations,
the finalized Job's spec carries backoffLimit 4. -/
theorem to_job_backoff_limit_always_four (b : JobBuilder Oref Port SPort PodSpec) :
    (b.to_job).spec.map (fun s => s.backoff_limit) = some (some 4) :=
  rfl

/-- C4: for every JobBuilder whose ownership references are a non-empty
sequence O, the finalized Job carries exactly O, together with the same
name and labels, both in its top-level metadata and in its pod-template
metadata — the two metadata copies are equal. -/
theorem to_job_owner_ref_duplicated (b : JobBuilder Oref Port SPort PodSpec)
    (O : List Oref) (hne : O ≠ []) (h : b.owner_ref = some O) :
    (b.to_job).metadata = some
      { name := some b.name
        labels := some b.labels
        owner_references := some O }
    ∧ (b.to_job).spec.map (fun s => s.template.metadata) = some (some
      { name := some b.name
        labels := some b.labels
        owner_references := some O }) := by
  refine ⟨?_, ?_⟩ <;> simp [JobBuilder.to_job, h]

/-- C5: for every ServiceBuilder whose component declares no listening
port, do_request issues no create request (the cluster state is unchanged,
for every possible client) and returns success. -/
theorem service_do_request_no_port_is_noop_success {σ : Type}
    (b : ServiceBuilder Oref Port SPort PodSpec) (client : APIClient Oref SPort PodSpec σ)
    (ns : String) (s : σ) (h : b.component.listening_port = none) :
    b.do_request client ns s = (s, Except.ok ()) := by
  unfold ServiceBuilder.do_request ServiceBuilder.to_service
  rw [h]
  rfl

/-- C6: for every chain of JobBuilder configuration ops that never invokes
the parallelism setter, the finalized Job's spec.parallelism is absent
(none), not zero. -/
theorem parallelism_absent_when_never_set (n : String) (c : Component Port SPort PodSpec)
    (ops : List (JobOp Oref)) (h : ∀ op ∈ ops, op.isSetParallelism = false) :
    (((JobBuilder.new n c : JobBuilder Oref Port SPort PodSpec).applyAll ops).to_job).spec.map
      (fun s => s.parallelism) = some none := by
  have hp : ((JobBuilder.new n c : JobBuilder Oref Port SPort PodSpec).applyAll
      ops).parallelism = none :=
    JobBuilder.applyAll_preserves_parallelism
      (JobBuilder.new n c : JobBuilder Oref Port SPort PodSpec) ops h
  simp [JobBuilder.to_job, hp]

/-- C7: for every instance name and component, JobBuilder::new yields
restart policy "Never", empty labels, absent owner references and unset
parallelism, and ServiceBuilder::new yields empty labels and absent owner
references. -/
theorem builders_new_defaults (n : String) (c : Component Port SPort PodSpec) :
    (JobBuilder.new n c : JobBuilder Oref Port SPort PodSpec).restart_policy = "Never"
    ∧ (JobBuilder.new n c : JobBuilder Oref Port SPort PodSpec).labels = []
    ∧ (JobBuilder.new n c : JobBuilder Oref Port SPort PodSpec).owner_ref = none
    ∧ (JobBuilder.new n c : JobBuilder Oref Port SPort PodSpec).parallelism = none
    ∧ (ServiceBuilder.new n c : ServiceBuilder Oref Port SPort PodSpec).labels = []
    ∧ (ServiceBuilder.new n c : ServiceBuilder Oref Port SPort PodSpec).owner_ref = none :=
  ⟨rfl, rfl, rfl, rfl, rfl, rfl⟩

/-- C8: finalization is a pure function of the builder state — two
applications of to_job (and of to_service) to the same unmodified builder
value yield structurally equal results. -/
theorem finalize_pure_deterministic (b : JobBuilder Oref Port SPort PodSpec)
    (sb : ServiceBuilder Oref Port SPort PodSpec) :
    b.to_job = b.to_job ∧ sb.to_service = sb.to_service :=
  ⟨rfl, rfl⟩

/-- C9: for every instance name given at construction and every chain of
configuration ops, the finalized Job's metadata name, its pod-template
metadata name, and (when a Service is produced) the Service's metadata name
all equal the instance name verbatim. -/
theorem instance_name_single_source_of_truth (n : String) (c : Component Port SPort PodSpec)
    (ops : List (JobOp Oref)) (sops : List (ServiceOp Oref)) (svc : Service Oref SPort)
    (h : ((ServiceBuilder.new n c : ServiceBuilder Oref Port SPort PodSpec).applyAll
      sops).to_service = some svc) :
    (((JobBuilder.new n c : JobBuilder Oref Port SPort PodSpec).applyAll
        ops).to_job).metadata.bind ObjectMeta.name = some n
    ∧ (((JobBuilder.new n c : JobBuilder Oref Port SPort PodSpec).applyAll
        ops).to_job).spec.map (fun s => s.template.metadata.bind ObjectMeta.name)
      = some (some n)
    ∧ svc.metadata.bind ObjectMeta.name = some n := by
  have hjn : ((JobBuilder.new n c : JobBuilder Oref Port SPort PodSpec).applyAll ops).name = n :=
    JobBuilder.applyAll_preserves_name _ ops
  have hsn : ((ServiceBuilder.new n c : ServiceBuilder Oref Port SPort PodSpec).applyAll
      sops).name = n :=
    ServiceBuilder.applyAll_preserves_service_name _ sops
  refine ⟨?_, ?_, ?_⟩
  · simp [JobBuilder.to_job, hjn]
  · simp [JobBuilder.to_job, hjn]
  · unfold ServiceBuilder.to_service at h
    cases hp : ((ServiceBuilder.new n c : ServiceBuilder Oref Port SPort PodSpec).applyAll
        sops).component.listening_port with
    | none => rw [hp] at h; simp at h
    | some p =>
        rw [hp] at h
        simp only [Option.some_bind, Option.some.injEq] at h
        rw [← h]
        simp [hsn]

/-- C10: each setter is the wholesale replacement of its own field, leaving
every other builder field — name and component included — unchanged; the
owner-reference setters clear on none since the argument is stored as
given. -/
theorem setters_frame_conditions (b : JobBuilder Oref Port SPort PodSpec) (L : Labels)
    (p : String) (o : Option (List Oref)) (k : Int)
    (sb : ServiceBuilder Oref Port SPort PodSpec) (L2 : Labels) (o2 : Option (List Oref)) :
    b.set_labels L =
      { component := b.component, labels := L, name := b.name
        restart_policy := b.restart_policy, owner_ref := b.owner_ref
        parallelism := b.parallelism }
    ∧ b.set_restart_policy p =
      { component := b.component, labels := b.labels, name := b.name
        restart_policy := p, owner_ref := b.owner_ref, parallelism := b.parallelism }
    ∧ b.set_owner_ref o =
      { component := b.component, labels := b.labels, name := b.name
        restart_policy := b.restart_policy, owner_ref := o, parallelism := b.parallelism }
    ∧ b.set_parallelism k =
      { component := b.component, labels := b.labels, name := b.name
        restart_policy := b.restart_policy, owner_ref := b.owner_ref
        parallelism := some k }
    ∧ sb.set_labels L2 =
      { component := sb.component, labels := L2, name := sb.name, owner_ref := sb.owner_ref }
    ∧ sb.set_owner_reference o2 =
      { component := sb.component, labels := sb.labels, name := sb.name, owner_ref := o2 } :=
  ⟨rfl, rfl, rfl, rfl, rfl, rfl⟩

end ClaimTheorems

end Rudr

namespace Rudr

/-- A concrete component declaring no listening port, used to evaluate the
theorems at concrete inputs. -/
def portlessComponent : Component Nat Nat Unit :=
  { listening_port := none
    to_service_port := fun p => p
    to_pod_spec_with_policy := fun _ => () }

/-- A concrete component declaring listening port 8080, whose service-port
conversion is the identity on the port number. -/
def webComponent : Component Nat Nat Unit :=
  { listening_port := some 8080
    to_service_port := fun p => p
    to_pod_spec_with_policy := fun _ => () }

/-- A concrete port-less ServiceBuilder with labels configured. -/
def sbNoPort : ServiceBuilder Nat Nat Nat Unit :=
  (ServiceBuilder.new "batch-1" portlessComponent).set_labels [("app", "batch")]

/-- A concrete ServiceBuilder over webComponent with labels configured. -/
def sbWeb : ServiceBuilder Nat Nat Nat Unit :=
  (ServiceBuilder.new "web-1" webComponent).set_labels [("app", "web")]

/-- A concrete JobBuilder with labels and owner references configured. -/
def jbOwned : JobBuilder Nat Nat Nat Unit :=
  ((JobBuilder.new "web-1" webComponent).set_labels [("app", "web")]).set_owner_ref
    (some [7])

/-- A concrete client over a cluster state recording each namespace a
create request is issued for. -/
def recordingClient : APIClient Nat Nat Unit (List String) :=
  { create_job := fun ns _ s => (s ++ [ns], Except.ok ())
    create_service := fun ns _ s => (s ++ [ns], Except.ok ()) }

/-- A concrete op chain that never invokes the parallelism setter. -/
def jobOpsNoParallelism : List (JobOp Nat) :=
  [JobOp.set_labels [("app", "web")], JobOp.set_restart_policy "OnFailure",
    JobOp.set_owner_ref (some [7])]

/-- The Service value the web builder finalizes to. -/
def svcWeb : Service Nat Nat :=
  { metadata := some
      { name := some "web-1", labels := some [("app", "web")], owner_references := none }
    spec := some { selector := some [("app", "web")], ports := some [8080] } }

/-- Witness for C1 at the concrete port-less builder. -/
theorem to_service_absent_without_port_witness :
    sbNoPort.component.listening_port = none ∧ sbNoPort.to_service = none :=
  ⟨rfl, to_service_absent_without_port sbNoPort rfl⟩

/-- Witness for C2 at the concrete web builder. -/
theorem to_service_with_port_witness :
    sbWeb.component.listening_port = some 8080 ∧
    sbWeb.to_service = some
      { metadata := some
          { name := some "web-1", labels := some [("app", "web")], owner_references := none }
        spec := some { selector := some [("app", "web")], ports := some [8080] } } :=
  ⟨rfl, to_service_with_port_ports_selector sbWeb 8080 rfl⟩

/-- Witness for C4 at the concrete owned JobBuilder. -/
theorem to_job_owner_ref_duplicated_witness :
    (([7] : List Nat) ≠ []) ∧
    ((jbOwned.to_job).metadata = some
      { name := some "web-1", labels := some [("app", "web")], owner_references := some [7] }
    ∧ (jbOwned.to_job).spec.map (fun s => s.template.metadata) = some (some
      { name := some "web-1", labels := some [("app", "web")], owner_references := some [7] })) :=
  ⟨by decide, to_job_owner_ref_duplicated jbOwned [7] (by decide) rfl⟩

/-- Witness for C5: submitting the port-less builder against the recording
client changes no state and succeeds. -/
theorem service_do_request_no_port_witness :
    sbNoPort.component.listening_port = none ∧
    sbNoPort.do_request recordingClient "default" [] = ([], Except.ok ()) :=
  ⟨rfl, service_do_request_no_port_is_noop_success sbNoPort recordingClient "default" [] rfl⟩

/-- Witness for C6 at a concrete op chain avoiding the parallelism setter. -/
theorem parallelism_absent_when_never_set_witness :
    (∀ op ∈ jobOpsNoParallelism, op.isSetParallelism = false) ∧
    (((JobBuilder.new "web-1" webComponent : JobBuilder Nat Nat Nat Unit).applyAll
        jobOpsNoParallelism).to_job).spec.map (fun s => s.parallelism) = some none :=
  ⟨by decide, parallelism_absent_when_never_set "web-1" webComponent jobOpsNoParallelism
    (by decide)⟩

/-- Witness for C9 at concrete op chains and the concrete finalized
Service. -/
theorem instance_name_single_source_witness :
    ((ServiceBuilder.new "web-1" webComponent : ServiceBuilder Nat Nat Nat Unit).applyAll
        [ServiceOp.set_labels [("app", "web")]]).to_service = some svcWeb ∧
    ((((JobBuilder.new "web-1" webComponent : JobBuilder Nat Nat Nat Unit).applyAll
        [JobOp.set_labels [("app", "web")]]).to_job).metadata.bind ObjectMeta.name
      = some "web-1"
    ∧ (((JobBuilder.new "web-1" webComponent : JobBuilder Nat Nat Nat Unit).applyAll
        [JobOp.set_labels [("app", "web")]]).to_job).spec.map
        (fun s => s.template.metadata.bind ObjectMeta.name) = some (some "web-1")
    ∧ svcWeb.metadata.bind ObjectMeta.name = some "web-1") :=
  ⟨rfl, instance_name_single_source_of_truth "web-1" webComponent
    [JobOp.set_labels [("app", "web")]] [ServiceOp.set_labels [("app", "web")]] svcWeb rfl⟩

end Rudr
